import Mathlib

/-!
Verification of the Sphinx documentation configuration module
`docs/source/conf.py` of the ataraxis-micro-controller repository.

The module is shallowly embedded: Python literal values become `PyValue`,
expressions become `PyExpr` (literals, environment reads, and opaque
external calls), and the module body becomes the list `confStatements`
of top-level statements, transcribed statement by statement from the
source file.  Evaluating the module against an arbitrary external state
produces the list of (name, value) bindings in assignment order.
-/

/-- A Python value as it can appear in the configuration module:
a string, a list of values, or a dict given as ordered key/value pairs. -/
inductive PyValue where
  | str : String → PyValue
  | list : List PyValue → PyValue
  | dict : List (PyValue × PyValue) → PyValue
  deriving Repr

/-- A Python expression on the right-hand side of a top-level assignment.
Besides literals, the model keeps environment reads and (unary) external
calls so that determinism of the module is a fact about its statements,
not a consequence of the expression type. -/
inductive PyExpr where
  | lit : PyValue → PyExpr
  | envRead : String → PyExpr
  | call : String → PyExpr → PyExpr
  deriving Repr

/-- A top-level statement of a Python module: an import, an assignment,
a function definition, or a class definition. -/
inductive PyStmt where
  | importModule : String → PyStmt
  | assign : String → PyExpr → PyStmt
  | funcDef : String → PyStmt
  | classDef : String → PyStmt
  deriving Repr

/-- External, non-literal information an expression may consult:
process environment variables and results of external calls. -/
structure ExternalState where
  environ : String → PyValue
  callResult : String → PyValue → PyValue

/-- Evaluate an expression against an external state. -/
def evalExpr (ext : ExternalState) : PyExpr → PyValue
  | .lit v => v
  | .envRead k => ext.environ k
  | .call f a => ext.callResult f (evalExpr ext a)

/-- Evaluate a module body: collect the (name, value) pairs produced by
the assignment statements, in program order. -/
def evalModule (stmts : List PyStmt) (ext : ExternalState) :
    List (String × PyValue) :=
  stmts.foldl
    (fun bs s =>
      match s with
      | .assign n e => bs ++ [(n, evalExpr ext e)]
      | _ => bs)
    []

/-- Look a name up among the produced bindings; as in Python, the last
assignment to a name wins. -/
def lookupBinding : List (String × PyValue) → String → Option PyValue
  | [], _ => none
  | (k, v) :: rest, n =>
      match lookupBinding rest n with
      | some v' => some v'
      | none => if k = n then some v else none

/-- The top-level statements of `docs/source/conf.py`, transcribed from
the source file in order. -/
def confStatements : List PyStmt :=
  [ .importModule "sphinx_rtd_theme",
    .assign "project"
      (.lit (.str "SerializedTransferProtocol_Microcontroller")),
    .assign "copyright" (.lit (.str "2024, Ivan Kondratyev (Inkaros)")),
    .assign "author" (.lit (.str "Ivan Kondratyev (Inkaros)")),
    .assign "release" (.lit (.str "1.0.0")),
    .assign "extensions"
      (.lit (.list [.str "breathe", .str "sphinx_rtd_theme"])),
    .assign "breathe_projects"
      (.lit (.dict
        [(.str "SerializedTransferProtocol_Microcontroller",
          .str "./doxygen/xml")])),
    .assign "breathe_default_project"
      (.lit (.str "SerializedTransferProtocol_Microcontroller")),
    .assign "templates_path" (.lit (.list [.str "_templates"])),
    .assign "exclude_patterns" (.lit (.list [])),
    .assign "html_theme" (.lit (.str "sphinx_rtd_theme")) ]

/-- The value bound to `name` after evaluating `conf.py` against the
external state `ext`. -/
def confBinding (ext : ExternalState) (name : String) : Option PyValue :=
  lookupBinding (evalModule confStatements ext) name

/-- A source file of the supplied repository content: its path and its
top-level statements. -/
structure SourceFile where
  path : String
  statements : List PyStmt

/-- The single supplied source file, `docs/source/conf.py`. -/
def confPy : SourceFile :=
  { path := "docs/source/conf.py", statements := confStatements }

/-- The source files supplied with the repository. -/
def repoSourceFiles : List SourceFile := [confPy]

/-- A statement is an import or an assignment of a literal constant. -/
def isImportOrLiteralAssign : PyStmt → Bool
  | .importModule _ => true
  | .assign _ (.lit _) => true
  | _ => false

/-- A statement defines a function or a class. -/
def definesFunctionOrClass : PyStmt → Bool
  | .funcDef _ => true
  | .classDef _ => true
  | _ => false

/-- The keys of a dict value (empty for non-dict values). -/
def dictKeys : PyValue → List PyValue
  | .dict entries => entries.map Prod.fst
  | _ => []

/-- The elements of a list value (empty for non-list values). -/
def listElems : PyValue → List PyValue
  | .list xs => xs
  | _ => []

/-- C1: after evaluating `conf.py`, whatever the external state, the
binding `extensions` is exactly the two-element list
['breathe', 'sphinx_rtd_theme'], in that order. -/
theorem C1_extensions_binding (ext : ExternalState) :
    confBinding ext "extensions" =
      some (.list [.str "breathe", .str "sphinx_rtd_theme"]) := rfl

/-- C2: after evaluating `conf.py`, the binding `breathe_projects` is a
dict with the single entry mapping the project name
"SerializedTransferProtocol_Microcontroller" to the Doxygen XML output
directory "./doxygen/xml". -/
theorem C2_breathe_projects_binding (ext : ExternalState) :
    confBinding ext "breathe_projects" =
      some (.dict
        [(.str "SerializedTransferProtocol_Microcontroller",
          .str "./doxygen/xml")]) := rfl

/-- C3: after evaluating `conf.py`, the binding `html_theme` is the
string 'sphinx_rtd_theme'. -/
theorem C3_html_theme_binding (ext : ExternalState) :
    confBinding ext "html_theme" = some (.str "sphinx_rtd_theme") := rfl

/-- C4: the supplied source contains no executable logic: every
top-level statement of the only source file is an import or a literal
configuration assignment, and none defines a function or a class. -/
theorem C4_only_metadata :
    repoSourceFiles.length = 1 ∧
      confPy.statements.all
        (fun s => isImportOrLiteralAssign s && !(definesFunctionOrClass s))
        = true :=
  ⟨rfl, rfl⟩

/-- C5 counterexample: the supplied repository content does not consist
of two files; it holds exactly one source file, so its file count
compared with 2 is false. -/
theorem C5_counterexample : (repoSourceFiles.length == 2) = false := rfl

/-- C5 (amended): the supplied repository content consists of a single
`conf.py` documentation configuration file, all of whose statements are
imports or literal configuration assignments. -/
theorem C5_single_conf_file :
    repoSourceFiles = [confPy] ∧
      confPy.path = "docs/source/conf.py" ∧
      confPy.statements.all isImportOrLiteralAssign = true :=
  ⟨rfl, rfl, rfl⟩

/-- C6: after evaluating `conf.py`, the binding `project` is the library
name "SerializedTransferProtocol_Microcontroller". -/
theorem C6_project_binding (ext : ExternalState) :
    confBinding ext "project" =
      some (.str "SerializedTransferProtocol_Microcontroller") := rfl

/-- C7: the configuration is internally consistent: the value of
`breathe_default_project` is a key of the `breathe_projects` dict, and
the value of `html_theme` is an element of the `extensions` list. -/
theorem C7_internally_consistent (ext : ExternalState) :
    ∃ d bp ht ex,
      confBinding ext "breathe_default_project" = some d ∧
      confBinding ext "breathe_projects" = some bp ∧
      d ∈ dictKeys bp ∧
      confBinding ext "html_theme" = some ht ∧
      confBinding ext "extensions" = some ex ∧
      ht ∈ listElems ex :=
  ⟨_, _, _, _, rfl, rfl, List.mem_singleton.mpr rfl, rfl, rfl,
    List.mem_cons_of_mem _ (List.mem_singleton.mpr rfl)⟩

/-- C8: after evaluating `conf.py`, `exclude_patterns` is the empty list
and `templates_path` is the one-element list ['_templates']. -/
theorem C8_paths_and_exclusions (ext : ExternalState) :
    confBinding ext "exclude_patterns" = some (.list []) ∧
      confBinding ext "templates_path" =
        some (.list [.str "_templates"]) :=
  ⟨rfl, rfl⟩

/-- C9: evaluation of `conf.py` is deterministic: the ten configuration
names are each assigned a literal constant, and any two evaluations of
the module, against arbitrary external states, produce identical
bindings. -/
theorem C9_deterministic :
    (∀ ext : ExternalState,
      (evalModule confStatements ext).map Prod.fst =
        ["project", "copyright", "author", "release", "extensions",
         "breathe_projects", "breathe_default_project", "templates_path",
         "exclude_patterns", "html_theme"]) ∧
    (confStatements.all isImportOrLiteralAssign = true) ∧
    ∀ ext1 ext2 : ExternalState,
      evalModule confStatements ext1 = evalModule confStatements ext2 :=
  ⟨fun _ => rfl, rfl, fun _ _ => rfl⟩
